import Mathlib

/-!
Verification development for the stencil compilation and execution engine
taught by the GT4Py workshop notebooks.  The repository contains only the
tutorial notebook `Session-1A.1.ipynb`, which defines stencils in GTScript
(the `shift_by_one` stencil and the horizontal-Laplacian exercise) and
invokes the engine; the engine itself (gt4py) is not part of the
repository.  Every definition below whose doc comment starts with
"Modelled from the spec:" embeds the behaviour of that missing engine as
described in the specification; definitions taken from the notebook source
(the stencil bodies, grid sizes, origins and domains) say so in their
doc comments.
-/

namespace GT4Py

/-- Element values of a `float64` field, modelled as exact rationals
(exact arithmetic: any two backends that agree exactly agree within any
floating-point tolerance). -/
abbrev Val := ℚ

/-- Flat 3-D field contents: a value at every (i, j, k) index. -/
abbrev Fld := ℤ → ℤ → ℤ → Val

/-- Triple of signed integers used for indices, offsets, shapes, origins
and domains ("Offsets are signed integers; `[0,0,0]` denotes the point
being computed"). -/
structure Idx3 where
  i : ℤ
  j : ℤ
  k : ℤ
deriving DecidableEq

/-- Element data types supported by storages; the notebook uses
`np.float64` throughout. -/
inductive DType
  | float64
  | float32
deriving DecidableEq

/-- Modelled from the spec: a Storage has a logical shape (3 integers), an
`origin` alignment anchor, an element dtype and buffer contents.  The
buffer contents are modelled as a total function on indices; out-of-shape
indices are never read by a validated invocation. -/
structure Storage where
  shape : Idx3
  origin : Idx3
  dtype : DType
  data : Fld

/-- Modelled from the spec: per-field halo requirement
`(max_negative_offset, max_positive_offset)` per axis. -/
structure HaloReq where
  iminus : ℕ
  iplus : ℕ
  jminus : ℕ
  jplus : ℕ
  kminus : ℕ
  kplus : ℕ
deriving DecidableEq

/-- Halo requirement of a field that is only accessed at offset (0,0,0). -/
def zeroHalo : HaloReq := HaloReq.mk 0 0 0 0 0 0

/-- Membership of a point (i, j, k) in the computed region
`[origin, origin + domain)`. -/
def inRegion (o d : Idx3) (i j k : ℤ) : Prop :=
  o.i ≤ i ∧ i < o.i + d.i ∧ o.j ≤ j ∧ j < o.j + d.j ∧ o.k ≤ k ∧ k < o.k + d.k

instance (o d : Idx3) (i j k : ℤ) : Decidable (inRegion o d i j k) := by
  unfold inRegion
  infer_instance

/-- Modelled from the spec: bounds validation for one bound field.  The
computed region `[origin, origin + domain)` must lie within the shape and
leave at least the halo requirement on every side actually read. -/
def haloValid (h : HaloReq) (shape : Idx3) (o d : Idx3) : Prop :=
  (h.iminus : ℤ) ≤ o.i ∧ o.i + d.i + (h.iplus : ℤ) ≤ shape.i ∧
  (h.jminus : ℤ) ≤ o.j ∧ o.j + d.j + (h.jplus : ℤ) ≤ shape.j ∧
  (h.kminus : ℤ) ≤ o.k ∧ o.k + d.k + (h.kplus : ℤ) ≤ shape.k

instance (h : HaloReq) (shape o d : Idx3) : Decidable (haloValid h shape o d) := by
  unfold haloValid
  infer_instance

/-- Backend identifiers, from the notebook backend list: reference
interpreter, vectorized numpy, and the natively compiled GridTools
targets. -/
inductive Backend
  | debug
  | numpy
  | gtx86
  | gtmc
  | gtcuda
deriving DecidableEq

/-- Point update of field contents. -/
def writeAt (f : Fld) (p : Idx3) (v : Val) : Fld :=
  fun i j k => if p = Idx3.mk i j k then v else f i j k

/-- Modelled from the spec: the vectorized (numpy) backend computes every
point of the region from the pre-call contents at once; points outside
the region keep the previous output contents. -/
def numpyRun (kernel : Fld → ℤ → ℤ → ℤ → Val) (inp out : Fld) (o d : Idx3) : Fld :=
  fun i j k => if inRegion o d i j k then kernel inp i j k else out i j k

/-- Enumeration of the computed region in i-outer, k-inner loop order, as
the reference (debug) backend iterates it. -/
def regionList (o d : Idx3) : List Idx3 :=
  (List.range d.i.toNat).flatMap (fun a : ℕ =>
    (List.range d.j.toNat).flatMap (fun b : ℕ =>
      (List.range d.k.toNat).map (fun c : ℕ =>
        Idx3.mk (o.i + (a : ℤ)) (o.j + (b : ℤ)) (o.k + (c : ℤ)))))

/-- Enumeration of the computed region in k-outer, i-inner loop order, as
a natively compiled loop nest iterates it. -/
def regionListKJI (o d : Idx3) : List Idx3 :=
  (List.range d.k.toNat).flatMap (fun c : ℕ =>
    (List.range d.j.toNat).flatMap (fun b : ℕ =>
      (List.range d.i.toNat).map (fun a : ℕ =>
        Idx3.mk (o.i + (a : ℤ)) (o.j + (b : ℤ)) (o.k + (c : ℤ)))))

/-- Modelled from the spec: the reference (debug) backend emits a direct
triple-nested index loop over the computed region, writing one point at a
time. -/
def debugRun (kernel : Fld → ℤ → ℤ → ℤ → Val) (inp out : Fld) (o d : Idx3) : Fld :=
  (regionList o d).foldl (fun acc p => writeAt acc p (kernel inp p.i p.j p.k)) out

/-- Modelled from the spec: a natively compiled CPU backend emits a loop
nest over the same region with a different (k-outer) loop order. -/
def gtRun (kernel : Fld → ℤ → ℤ → ℤ → Val) (inp out : Fld) (o d : Idx3) : Fld :=
  (regionListKJI o d).foldl (fun acc p => writeAt acc p (kernel inp p.i p.j p.k)) out

/-- Modelled from the spec: dispatch from a backend identifier to its
kernel execution strategy. -/
def runBackend (b : Backend) : (Fld → ℤ → ℤ → ℤ → Val) → Fld → Fld → Idx3 → Idx3 → Fld :=
  match b with
  | Backend.debug => debugRun
  | Backend.numpy => numpyRun
  | Backend.gtx86 => gtRun
  | Backend.gtmc => gtRun
  | Backend.gtcuda => gtRun

/-- Modelled from the spec: a CompiledArtifact as used at invocation time
for the notebook stencils: a backend identifier, the halo requirement of
the read field and of the written field, and the kernel (per-point
expression over the read field).  It records no storage shape. -/
structure Artifact where
  backendId : Backend
  inHalo : HaloReq
  outHalo : HaloReq
  kernel : Fld → ℤ → ℤ → ℤ → Val

/-- Error taxonomy of the engine, from the spec. -/
inductive GTError
  | definitionError (msg : String)
  | backendCompilationError (msg : String)
  | outOfBoundsError
  | signatureMismatchError (msg : String)
deriving DecidableEq

/-- Observable work events: code generation by a backend, and a kernel
execution. -/
inductive Event
  | codegen (b : Backend)
  | kernelExec (b : Backend)
deriving DecidableEq

/-- Modelled from the spec: stencil-object invocation with event trace.
It validates every bound storage against the halo requirement recorded on
the artifact; on failure it raises `OutOfBoundsError` before any kernel
executes (empty trace, no storage modified); on success it dispatches the
backend kernel over exactly `[origin, origin + domain)`. -/
def invokeT (art : Artifact) (in_field out_field : Storage) (origin domain : Idx3) :
    Except GTError Storage × List Event :=
  if haloValid art.inHalo in_field.shape origin domain ∧
     haloValid art.outHalo out_field.shape origin domain then
    (Except.ok (Storage.mk out_field.shape out_field.origin out_field.dtype
        (runBackend art.backendId art.kernel in_field.data out_field.data origin domain)),
     [Event.kernelExec art.backendId])
  else
    (Except.error GTError.outOfBoundsError, [])

/-- Stencil invocation: the result part of `invokeT`. -/
def invoke (art : Artifact) (in_field out_field : Storage) (origin domain : Idx3) :
    Except GTError Storage :=
  (invokeT art in_field out_field origin domain).1

/-- The `shift_by_one` stencil of the notebook: its single stage is
`out_field = in_field[-1, 0, 0]`, so the read field needs one halo point
on the negative i side and the kernel reads the input at (i-1, j, k). -/
def shift_by_one (b : Backend) : Artifact :=
  Artifact.mk b (HaloReq.mk 1 0 0 0 0 0) zeroHalo (fun inp i j k => inp (i - 1) j k)

/-- Halo requirement of the 5-point Laplacian input: one point on each
side in i and j, none in k. -/
def lapHalo : HaloReq := HaloReq.mk 1 1 1 1 0 0

/-- Modelled from the spec: the horizontal-Laplacian stencil of the
notebook exercise (the notebook leaves its body as a TODO); the spec gives
the stage `coeff * (-4 u[i,j] + u[i-1,j] + u[i+1,j] + u[i,j-1] + u[i,j+1])`
with a scalar keyword argument `coeff`. -/
def laplacian (coeff : Val) (b : Backend) : Artifact :=
  Artifact.mk b lapHalo zeroHalo (fun inp i j k =>
    coeff * (-4 * inp i j k + inp (i - 1) j k + inp (i + 1) j k
      + inp i (j - 1) k + inp i (j + 1) k))

/-- Storage with the allocation of the notebook setup: nx = ny = 8,
nz = 1, nhalo = 3, so shape (14, 14, 1) and default origin (3, 3, 0). -/
def wsStorage (f : Fld) : Storage :=
  Storage.mk (Idx3.mk 14 14 1) (Idx3.mk 3 3 0) DType.float64 f

/-- Vertical iteration policies of a computation block. -/
inductive VPolicy
  | parallel
  | forward
  | backward
deriving DecidableEq

/-- Vertical interval of a computation block; `none` bounds stand for the
symbolic full extent, as in `interval(...)`. -/
structure VInterval where
  lo : Option ℤ
  hi : Option ℤ
deriving DecidableEq

/-- Modelled from the spec: right-hand-side expression tree of a stage.
The permitted grammar is elementwise arithmetic, elementwise math
functions, conditional expressions, field-offset access and scalar
parameters; `extCall` stands for a call to an operation outside that
grammar, such as `np.sqrt` in the notebook exercise. -/
inductive RawExpr
  | lit (v : Val)
  | scalarArg (n : String)
  | access (f : String) (di dj dk : ℤ)
  | add (a b : RawExpr)
  | sub (a b : RawExpr)
  | mul (a b : RawExpr)
  | div (a b : RawExpr)
  | mathFn (n : String) (a : RawExpr)
  | extCall (n : String) (a : RawExpr)
  | cond (c a b : RawExpr)
deriving DecidableEq

/-- A stage: target field and right-hand expression. -/
structure Stage where
  target : String
  rhs : RawExpr
deriving DecidableEq

/-- A computation block: vertical policy, vertical interval, ordered
stages. -/
structure CBlock where
  policy : VPolicy
  interval : VInterval
  stages : List Stage
deriving DecidableEq

/-- Declared field parameter: name plus the axes along which offsets are
supported (the notebook tutorial fields support i and j offsets; a
k-offset on a field that does not support it is a definition error). -/
structure FieldDecl where
  name : String
  axisI : Bool
  axisJ : Bool
  axisK : Bool
deriving DecidableEq

/-- Modelled from the spec: a stencil definition as seen by the DSL
front-end: declared fields, declared scalar parameters, and an ordered
sequence of computation blocks. -/
structure RawStencil where
  fields : List FieldDecl
  scalars : List String
  blocks : List CBlock
deriving DecidableEq

/-- True when the expression contains an operation outside the permitted
grammar. -/
def RawExpr.hasDisallowed : RawExpr → Bool
  | RawExpr.lit _ => false
  | RawExpr.scalarArg _ => false
  | RawExpr.access _ _ _ _ => false
  | RawExpr.add a b => a.hasDisallowed || b.hasDisallowed
  | RawExpr.sub a b => a.hasDisallowed || b.hasDisallowed
  | RawExpr.mul a b => a.hasDisallowed || b.hasDisallowed
  | RawExpr.div a b => a.hasDisallowed || b.hasDisallowed
  | RawExpr.mathFn _ a => a.hasDisallowed
  | RawExpr.extCall _ _ => true
  | RawExpr.cond c a b => c.hasDisallowed || a.hasDisallowed || b.hasDisallowed

/-- All field accesses (field name and offset triple) of an expression. -/
def RawExpr.accessList : RawExpr → List (String × ℤ × ℤ × ℤ)
  | RawExpr.lit _ => []
  | RawExpr.scalarArg _ => []
  | RawExpr.access f di dj dk => [(f, di, dj, dk)]
  | RawExpr.add a b => a.accessList ++ b.accessList
  | RawExpr.sub a b => a.accessList ++ b.accessList
  | RawExpr.mul a b => a.accessList ++ b.accessList
  | RawExpr.div a b => a.accessList ++ b.accessList
  | RawExpr.mathFn _ a => a.accessList
  | RawExpr.extCall _ a => a.accessList
  | RawExpr.cond c a b => c.accessList ++ a.accessList ++ b.accessList

/-- Look up a declared field by name. -/
def lookupField (fs : List FieldDecl) (n : String) : Option FieldDecl :=
  fs.find? (fun fd => fd.name == n)

/-- True when one access fails to resolve to a declared field or uses an
offset on an axis the field does not support. -/
def accessBad (fs : List FieldDecl) (a : String × ℤ × ℤ × ℤ) : Bool :=
  match lookupField fs a.1 with
  | none => true
  | some fd =>
    (!fd.axisI && a.2.1 != 0) || (!fd.axisJ && a.2.2.1 != 0) || (!fd.axisK && a.2.2.2 != 0)

/-- True when the stencil contains a disallowed operation. -/
def RawStencil.hasDisallowedOp (d : RawStencil) : Bool :=
  d.blocks.any (fun b => b.stages.any (fun s => s.rhs.hasDisallowed))

/-- True when some access of the stencil is unresolved or offsets an
unsupported axis, or some stage targets an undeclared field. -/
def RawStencil.hasBadAccess (d : RawStencil) : Bool :=
  d.blocks.any (fun b => b.stages.any (fun s =>
    s.rhs.accessList.any (accessBad d.fields) || (lookupField d.fields s.target).isNone))

/-- True when a stage reads, at a nonzero offset, a field written by an
earlier stage of the same block (given the list of already-written
targets). -/
def stageReadsHazard (written : List String) (s : Stage) : Bool :=
  s.rhs.accessList.any (fun a =>
    written.contains a.1 && (a.2.1 != 0 || a.2.2.1 != 0 || a.2.2.2 != 0))

/-- True when a block contains a read-after-write hazard. -/
def blockHazard (b : CBlock) : Bool :=
  (b.stages.foldl
    (fun acc s => (acc.1 || stageReadsHazard acc.2 s, s.target :: acc.2))
    (false, [])).1

/-- True when some block of the stencil contains a read-after-write
hazard. -/
def RawStencil.hasRAWHazard (d : RawStencil) : Bool :=
  d.blocks.any blockHazard

/-- Intermediate representation: the stencil definition after successful
validation by the front-end. -/
structure IR where
  decl : RawStencil
deriving DecidableEq

/-- Modelled from the spec: the DSL front-end.  It produces an IR or
fails with a `DefinitionError` naming the offending construct: a
disallowed operation, an unresolved access or an offset on an unsupported
axis, or a read-after-write hazard.  Pure translation, no side effect,
never retried. -/
def parse (d : RawStencil) : Except GTError IR :=
  if d.hasDisallowedOp then
    Except.error (GTError.definitionError "disallowed operation outside the permitted expression grammar")
  else if d.hasBadAccess then
    Except.error (GTError.definitionError "field access unresolved or offset on an unsupported axis")
  else if d.hasRAWHazard then
    Except.error (GTError.definitionError "read-after-write hazard inside a computation block")
  else
    Except.ok (IR.mk d)

/-- All accesses of the whole stencil. -/
def RawStencil.allAccesses (d : RawStencil) : List (String × ℤ × ℤ × ℤ) :=
  d.blocks.flatMap (fun b => b.stages.flatMap (fun s => s.rhs.accessList))

/-- Fold one access into a halo requirement for the named field. -/
def haloStep (n : String) (h : HaloReq) (a : String × ℤ × ℤ × ℤ) : HaloReq :=
  if a.1 == n then
    HaloReq.mk (max h.iminus (-a.2.1).toNat) (max h.iplus a.2.1.toNat)
      (max h.jminus (-a.2.2.1).toNat) (max h.jplus a.2.2.1.toNat)
      (max h.kminus (-a.2.2.2).toNat) (max h.kplus a.2.2.2.toNat)
  else h

/-- Modelled from the spec: the IR analyzer infers, per declared field,
the maximal positive and negative offset used in each axis. -/
def analyze (ir : IR) : List (String × HaloReq) :=
  ir.decl.fields.map (fun fd =>
    (fd.name, ir.decl.allAccesses.foldl (haloStep fd.name) zeroHalo))

/-- Modelled from the spec: a cacheable compiled artifact: backend
identifier, the validated IR it was generated from, and the per-field
halo requirement it was built against. -/
structure CompiledArtifact where
  backendId : Backend
  ir : IR
  halos : List (String × HaloReq)
deriving DecidableEq

/-- Modelled from the spec: backend code generation from the analyzed
IR. -/
def build (ir : IR) (b : Backend) : CompiledArtifact :=
  CompiledArtifact.mk b ir (analyze ir)

/-- Modelled from the spec: the compilation pipeline with its event
trace: parse, then (only on success) analyze and generate code.  A
`DefinitionError` is surfaced before any code generation happens, so the
trace of a failed parse is empty. -/
def compileT (d : RawStencil) (b : Backend) : Except GTError CompiledArtifact × List Event :=
  match parse d with
  | Except.error e => (Except.error e, [])
  | Except.ok ir => (Except.ok (build ir b), [Event.codegen b])

/-- Notebook exercise 1: the stage `a = np.sqrt(b[-1, 0, 0])`, a call
outside the permitted grammar. -/
def sqrtExercise : RawStencil :=
  RawStencil.mk
    [FieldDecl.mk "a" true true false, FieldDecl.mk "b" true true false] []
    [CBlock.mk VPolicy.parallel (VInterval.mk none none)
      [Stage.mk "a" (RawExpr.extCall "np.sqrt" (RawExpr.access "b" (-1) 0 0))]]

/-- Notebook exercise 2: a k-offset access on a field that does not
support offsets along k. -/
def kOffsetExercise : RawStencil :=
  RawStencil.mk
    [FieldDecl.mk "in_field" true true false, FieldDecl.mk "out_field" true true false] []
    [CBlock.mk VPolicy.parallel (VInterval.mk none none)
      [Stage.mk "out_field" (RawExpr.access "in_field" 0 0 1)]]

/-- Modelled from the spec: cache key = (normalized IR, backend
identifier, backend options). -/
structure Sig where
  ir : IR
  backendId : Backend
  opts : List (String × String)
deriving DecidableEq

/-- Modelled from the spec: the build cache maps signature keys to
compiled artifacts. -/
structure BuildCache where
  entries : List (Sig × CompiledArtifact)
deriving DecidableEq

/-- Cache lookup by key. -/
def cacheLookup (c : BuildCache) (key : Sig) : Option CompiledArtifact :=
  (c.entries.find? (fun e => decide (e.1 = key))).map (fun e => e.2)

/-- Modelled from the spec: `get_or_build`.  On a hit it returns the
stored artifact without invoking the builder; on a miss, or when the
rebuild flag is set, it invokes the builder and publishes the result.
The third component counts builder invocations performed by the call. -/
def getOrBuild (c : BuildCache) (key : Sig) (builder : Unit → CompiledArtifact)
    (rebuild : Bool) : CompiledArtifact × BuildCache × ℕ :=
  if rebuild then
    (builder (), BuildCache.mk ((key, builder ()) :: c.entries), 1)
  else
    match cacheLookup c key with
    | some a => (a, c, 0)
    | none => (builder (), BuildCache.mk ((key, builder ()) :: c.entries), 1)

/-- Coherence flags of a dual-buffer storage: whether the host buffer,
respectively the device buffer, has been written more recently than its
counterpart. -/
structure CoherenceFlags where
  hostDirty : Bool
  deviceDirty : Bool
deriving DecidableEq

/-- Host/device buffer accesses. -/
inductive MemOp
  | readHost
  | writeHost
  | readDevice
  | writeDevice
deriving DecidableEq

/-- Modelled from the spec: the lazy coherence protocol.  A write on side
X moves the state to XDirty without copying; a read on side X, when the
other side is dirty, copies and resets the state to Clean, and otherwise
changes nothing. -/
def stepFlags (s : CoherenceFlags) : MemOp → CoherenceFlags
  | MemOp.writeHost => CoherenceFlags.mk true false
  | MemOp.writeDevice => CoherenceFlags.mk false true
  | MemOp.readHost => if s.deviceDirty then CoherenceFlags.mk false false else s
  | MemOp.readDevice => if s.hostDirty then CoherenceFlags.mk false false else s

/-- The Clean state: neither buffer dirty. -/
def cleanFlags : CoherenceFlags := CoherenceFlags.mk false false

/-- Run a sequence of accesses through the coherence state machine. -/
def runOps (s : CoherenceFlags) (ops : List MemOp) : CoherenceFlags :=
  ops.foldl stepFlags s

/-- Modelled from the spec: the storage manager heap: storages addressed
by reference, plus the next fresh reference. -/
structure Heap where
  mem : ℕ → Option Storage
  next : ℕ

/-- Well-formed heap: references at or beyond `next` are unallocated. -/
def Heap.wf (h : Heap) : Prop :=
  ∀ r : ℕ, h.next ≤ r → h.mem r = none

/-- Allocate a storage at a fresh reference. -/
def Heap.alloc (h : Heap) (s : Storage) : Heap × ℕ :=
  (Heap.mk (fun x => if x = h.next then some s else h.mem x) (h.next + 1), h.next)

/-- Storage copy as in the notebook (`in_field.copy()`): allocate a new
storage with the same shape, origin, dtype and element values in a fresh
buffer. -/
def Heap.copyAt (h : Heap) (r : ℕ) : Heap × ℕ :=
  match h.mem r with
  | some s => h.alloc s
  | none => (h, r)

/-- Element write to the storage at reference r, as in the notebook line
setting one point of `in_field` to 1. -/
def Heap.writeElem (h : Heap) (r : ℕ) (i j k : ℤ) (v : Val) : Heap :=
  match h.mem r with
  | some s =>
    Heap.mk
      (fun x => if x = r then
          some (Storage.mk s.shape s.origin s.dtype (writeAt s.data (Idx3.mk i j k) v))
        else h.mem x)
      h.next
  | none => h

/-- Heap holding one zero-initialized storage of the notebook allocation
at reference 0. -/
def tutorialHeap : Heap :=
  Heap.mk (fun x => if x = 0 then some (wsStorage (fun _ _ _ => 0)) else none) 1

/-- Stencil invocation through the heap: binds the references to concrete
storages at invocation time and writes back only the output reference. -/
def Heap.invokeAt (h : Heap) (art : Artifact) (rin rout : ℕ) (o d : Idx3) :
    Except GTError Heap :=
  match h.mem rin, h.mem rout with
  | some s1, some s2 =>
    match invoke art s1 s2 o d with
    | Except.ok r =>
      Except.ok (Heap.mk (fun x => if x = rout then some r else h.mem x) h.next)
    | Except.error e => Except.error e
  | _, _ => Except.error (GTError.signatureMismatchError "unbound field parameter")

/-- Folding point writes over a list of points evaluates, at any index, to
the kernel value when the index is listed and to the previous contents
otherwise. -/
theorem foldl_writeAt_apply (kernel : Fld → ℤ → ℤ → ℤ → Val) (inp : Fld)
    (l : List Idx3) (out : Fld) (i j k : ℤ) :
    (l.foldl (fun acc p => writeAt acc p (kernel inp p.i p.j p.k)) out) i j k
      = if Idx3.mk i j k ∈ l then kernel inp i j k else out i j k := by
  induction l generalizing out with
  | nil => simp
  | cons p t ih =>
    rw [List.foldl_cons, ih]
    by_cases hm : Idx3.mk i j k ∈ t
    · simp [hm]
    · by_cases hp : p = Idx3.mk i j k
      · subst hp
        simp [hm, writeAt]
      · have hp2 : ¬(Idx3.mk i j k = p) := fun h => hp h.symm
        simp [hm, writeAt, hp, hp2, List.mem_cons]

/-- Membership in the i-outer region enumeration coincides with region
membership. -/
theorem mem_regionList (o d : Idx3) (i j k : ℤ) :
    Idx3.mk i j k ∈ regionList o d ↔ inRegion o d i j k := by
  constructor
  · intro hm
    rw [regionList, List.mem_flatMap] at hm
    obtain ⟨a, ha, hm⟩ := hm
    rw [List.mem_flatMap] at hm
    obtain ⟨b, hb, hm⟩ := hm
    rw [List.mem_map] at hm
    obtain ⟨c, hc, heq⟩ := hm
    rw [List.mem_range] at ha hb hc
    rw [Idx3.mk.injEq] at heq
    simp only [inRegion]
    omega
  · intro hr
    simp only [inRegion] at hr
    rw [regionList, List.mem_flatMap]
    refine ⟨(i - o.i).toNat, by rw [List.mem_range]; omega, ?_⟩
    rw [List.mem_flatMap]
    refine ⟨(j - o.j).toNat, by rw [List.mem_range]; omega, ?_⟩
    rw [List.mem_map]
    refine ⟨(k - o.k).toNat, by rw [List.mem_range]; omega, ?_⟩
    rw [Idx3.mk.injEq]
    omega

/-- Membership in the k-outer region enumeration coincides with region
membership. -/
theorem mem_regionListKJI (o d : Idx3) (i j k : ℤ) :
    Idx3.mk i j k ∈ regionListKJI o d ↔ inRegion o d i j k := by
  constructor
  · intro hm
    rw [regionListKJI, List.mem_flatMap] at hm
    obtain ⟨c, hc, hm⟩ := hm
    rw [List.mem_flatMap] at hm
    obtain ⟨b, hb, hm⟩ := hm
    rw [List.mem_map] at hm
    obtain ⟨a, ha, heq⟩ := hm
    rw [List.mem_range] at ha hb hc
    rw [Idx3.mk.injEq] at heq
    simp only [inRegion]
    omega
  · intro hr
    simp only [inRegion] at hr
    rw [regionListKJI, List.mem_flatMap]
    refine ⟨(k - o.k).toNat, by rw [List.mem_range]; omega, ?_⟩
    rw [List.mem_flatMap]
    refine ⟨(j - o.j).toNat, by rw [List.mem_range]; omega, ?_⟩
    rw [List.mem_map]
    refine ⟨(i - o.i).toNat, by rw [List.mem_range]; omega, ?_⟩
    rw [Idx3.mk.injEq]
    omega

/-- The reference (debug) backend agrees pointwise with the vectorized
backend. -/
theorem debugRun_eq_numpyRun (kernel : Fld → ℤ → ℤ → ℤ → Val) (inp out : Fld)
    (o d : Idx3) (i j k : ℤ) :
    debugRun kernel inp out o d i j k = numpyRun kernel inp out o d i j k := by
  rw [debugRun, foldl_writeAt_apply, numpyRun]
  by_cases hr : inRegion o d i j k
  · rw [if_pos ((mem_regionList o d i j k).mpr hr), if_pos hr]
  · rw [if_neg (fun hm => hr ((mem_regionList o d i j k).mp hm)), if_neg hr]

/-- The compiled loop-nest backend agrees pointwise with the vectorized
backend. -/
theorem gtRun_eq_numpyRun (kernel : Fld → ℤ → ℤ → ℤ → Val) (inp out : Fld)
    (o d : Idx3) (i j k : ℤ) :
    gtRun kernel inp out o d i j k = numpyRun kernel inp out o d i j k := by
  rw [gtRun, foldl_writeAt_apply, numpyRun]
  by_cases hr : inRegion o d i j k
  · rw [if_pos ((mem_regionListKJI o d i j k).mpr hr), if_pos hr]
  · rw [if_neg (fun hm => hr ((mem_regionListKJI o d i j k).mp hm)), if_neg hr]

/-- Every backend agrees pointwise with the vectorized backend. -/
theorem runBackend_eq_numpyRun (b : Backend) (kernel : Fld → ℤ → ℤ → ℤ → Val)
    (inp out : Fld) (o d : Idx3) (i j k : ℤ) :
    runBackend b kernel inp out o d i j k = numpyRun kernel inp out o d i j k := by
  cases b with
  | debug => exact debugRun_eq_numpyRun kernel inp out o d i j k
  | numpy => rfl
  | gtx86 => exact gtRun_eq_numpyRun kernel inp out o d i j k
  | gtmc => exact gtRun_eq_numpyRun kernel inp out o d i j k
  | gtcuda => exact gtRun_eq_numpyRun kernel inp out o d i j k

/-- A validated invocation succeeds and returns the storage computed by
the dispatched backend. -/
theorem invoke_ok (art : Artifact) (inf outf : Storage) (o d : Idx3)
    (hin : haloValid art.inHalo inf.shape o d)
    (hout : haloValid art.outHalo outf.shape o d) :
    invoke art inf outf o d = Except.ok (Storage.mk outf.shape outf.origin outf.dtype
      (runBackend art.backendId art.kernel inf.data outf.data o d)) := by
  unfold invoke invokeT
  rw [if_pos (And.intro hin hout)]

/-- C1: for the shift_by_one stencil, whose single stage reads the input
at offset (-1,0,0), any invocation whose origin and domain satisfy the
halo requirement sets, at every point (i,j,k) inside
[origin, origin+domain), the output to the input at (i-1,j,k). -/
theorem shift_by_one_correct (b : Backend) (inf outf : Storage) (o d : Idx3)
    (hin : haloValid (shift_by_one b).inHalo inf.shape o d)
    (hout : haloValid (shift_by_one b).outHalo outf.shape o d)
    (i j k : ℤ) (hp : inRegion o d i j k) :
    ∃ r : Storage, invoke (shift_by_one b) inf outf o d = Except.ok r ∧
      r.data i j k = inf.data (i - 1) j k := by
  refine ⟨_, invoke_ok _ _ _ _ _ hin hout, ?_⟩
  show runBackend (shift_by_one b).backendId (shift_by_one b).kernel
    inf.data outf.data o d i j k = inf.data (i - 1) j k
  rw [runBackend_eq_numpyRun]
  unfold numpyRun
  rw [if_pos hp]
  rfl

/-- C3: when an invocation succeeds, every element of the written field
outside the computed region [origin, origin+domain) retains its pre-call
value; only elements inside the region are modified. -/
theorem stencil_frame (art : Artifact) (inf outf : Storage) (o d : Idx3)
    (hin : haloValid art.inHalo inf.shape o d)
    (hout : haloValid art.outHalo outf.shape o d)
    (i j k : ℤ) (hp : ¬inRegion o d i j k) :
    ∃ r : Storage, invoke art inf outf o d = Except.ok r ∧
      r.data i j k = outf.data i j k := by
  refine ⟨_, invoke_ok _ _ _ _ _ hin hout, ?_⟩
  show runBackend art.backendId art.kernel inf.data outf.data o d i j k = outf.data i j k
  rw [runBackend_eq_numpyRun]
  unfold numpyRun
  rw [if_neg hp]

/-- C4: for a fixed stencil definition (kernel and halo requirements),
fixed input contents and fixed origin/domain, any two backends produce
results that agree at every point (in exact arithmetic, hence within any
floating-point tolerance). -/
theorem backend_equivalence (b1 b2 : Backend) (hI hO : HaloReq)
    (kernel : Fld → ℤ → ℤ → ℤ → Val) (inf outf : Storage) (o d : Idx3)
    (hin : haloValid hI inf.shape o d) (hout : haloValid hO outf.shape o d)
    (i j k : ℤ) :
    ∃ r1 r2 : Storage,
      invoke (Artifact.mk b1 hI hO kernel) inf outf o d = Except.ok r1 ∧
      invoke (Artifact.mk b2 hI hO kernel) inf outf o d = Except.ok r2 ∧
      r1.data i j k = r2.data i j k := by
  refine ⟨_, _, invoke_ok _ _ _ _ _ hin hout, invoke_ok _ _ _ _ _ hin hout, ?_⟩
  show runBackend b1 kernel inf.data outf.data o d i j k
    = runBackend b2 kernel inf.data outf.data o d i j k
  rw [runBackend_eq_numpyRun, runBackend_eq_numpyRun]

/-- C6: for the 5-point Laplacian stencil scaled by a scalar coefficient,
coeff = 0 makes every computed point exactly zero for any input, and
coeff = 1 makes every computed point equal the unscaled discrete
Laplacian of the input. -/
theorem laplacian_coeff_correct (b : Backend) (inf outf : Storage) (o d : Idx3)
    (hin : haloValid lapHalo inf.shape o d)
    (hout : haloValid zeroHalo outf.shape o d)
    (i j k : ℤ) (hp : inRegion o d i j k) :
    (∃ r : Storage, invoke (laplacian 0 b) inf outf o d = Except.ok r ∧
      r.data i j k = 0) ∧
    (∃ r : Storage, invoke (laplacian 1 b) inf outf o d = Except.ok r ∧
      r.data i j k = -4 * inf.data i j k + inf.data (i - 1) j k + inf.data (i + 1) j k
        + inf.data i (j - 1) k + inf.data i (j + 1) k) := by
  constructor
  · refine ⟨_, invoke_ok _ _ _ _ _ hin hout, ?_⟩
    show runBackend (laplacian 0 b).backendId (laplacian 0 b).kernel
      inf.data outf.data o d i j k = 0
    rw [runBackend_eq_numpyRun]
    unfold numpyRun
    rw [if_pos hp]
    show (0 : Val) * _ = 0
    rw [zero_mul]
  · refine ⟨_, invoke_ok _ _ _ _ _ hin hout, ?_⟩
    show runBackend (laplacian 1 b).backendId (laplacian 1 b).kernel
      inf.data outf.data o d i j k = _
    rw [runBackend_eq_numpyRun]
    unfold numpyRun
    rw [if_pos hp]
    show (1 : Val) * _ = _
    rw [one_mul]

/-- C2: when any bound storage fails the halo/bounds validation, the
invocation raises OutOfBoundsError with an empty event trace — no kernel
executes and no output storage is modified (atomic validate-then-execute);
and on the notebook allocation (shape 14x14x1, shift_by_one stencil), the
full-domain invocation from origin (0,0,0) fails while the maximal domain
that still respects the halo succeeds. -/
theorem out_of_bounds_atomic (art : Artifact) (inf outf : Storage) (o d : Idx3)
    (h : ¬(haloValid art.inHalo inf.shape o d ∧ haloValid art.outHalo outf.shape o d)) :
    invokeT art inf outf o d = (Except.error GTError.outOfBoundsError, []) ∧
    (∀ f g : Fld,
      invoke (shift_by_one Backend.numpy) (wsStorage f) (wsStorage g)
        (Idx3.mk 0 0 0) (Idx3.mk 14 14 1) = Except.error GTError.outOfBoundsError ∧
      ∃ r : Storage, invoke (shift_by_one Backend.numpy) (wsStorage f) (wsStorage g)
        (Idx3.mk 1 0 0) (Idx3.mk 13 14 1) = Except.ok r) := by
  refine ⟨?_, ?_⟩
  · unfold invokeT
    rw [if_neg h]
  · intro f g
    constructor
    · unfold invoke invokeT
      rw [if_neg (by
        rw [show (wsStorage f).shape = Idx3.mk 14 14 1 from rfl,
          show (wsStorage g).shape = Idx3.mk 14 14 1 from rfl]
        decide)]
    · exact ⟨_, invoke_ok _ _ _ _ _
        (by rw [show (wsStorage f).shape = Idx3.mk 14 14 1 from rfl]; decide)
        (by rw [show (wsStorage g).shape = Idx3.mk 14 14 1 from rfl]; decide)⟩

/-- C5: a definition containing a disallowed operation, an unresolved or
unsupported-axis field access, or a read-after-write hazard fails with a
DefinitionError at parse/analysis time: the pipeline surfaces the error
with an empty event trace, so no code generation and no invocation
happens, and the single-attempt pipeline never retries it. -/
theorem definition_error_before_compile (d : RawStencil) (b : Backend)
    (h : d.hasDisallowedOp = true ∨ d.hasBadAccess = true ∨ d.hasRAWHazard = true) :
    ∃ msg : String, compileT d b = (Except.error (GTError.definitionError msg), []) := by
  unfold compileT parse
  by_cases h1 : d.hasDisallowedOp
  · rw [if_pos h1]
    exact ⟨_, rfl⟩
  · rw [if_neg h1]
    by_cases h2 : d.hasBadAccess
    · rw [if_pos h2]
      exact ⟨_, rfl⟩
    · rw [if_neg h2]
      have h3 : d.hasRAWHazard = true := by
        rcases h with h | h | h
        · exact absurd h h1
        · exact absurd h h2
        · exact h
      rw [if_pos h3]
      exact ⟨_, rfl⟩

/-- C7: a compiled artifact is not tied to a grid size: the same artifact
can be invoked on storages of any shapes and on any compute sub-regions
that satisfy its halo requirement, each invocation succeeding, and no
invocation performs code generation (field names are bound to concrete
storages only at invocation time). -/
theorem artifact_shape_independent (art : Artifact)
    (inf1 outf1 : Storage) (o1 d1 : Idx3) (inf2 outf2 : Storage) (o2 d2 : Idx3)
    (h1 : haloValid art.inHalo inf1.shape o1 d1)
    (h1o : haloValid art.outHalo outf1.shape o1 d1)
    (h2 : haloValid art.inHalo inf2.shape o2 d2)
    (h2o : haloValid art.outHalo outf2.shape o2 d2) :
    (∃ r : Storage, invoke art inf1 outf1 o1 d1 = Except.ok r) ∧
    (∃ r : Storage, invoke art inf2 outf2 o2 d2 = Except.ok r) ∧
    (∀ b : Backend, Event.codegen b ∉ (invokeT art inf1 outf1 o1 d1).2) ∧
    (∀ b : Backend, Event.codegen b ∉ (invokeT art inf2 outf2 o2 d2).2) := by
  refine ⟨⟨_, invoke_ok _ _ _ _ _ h1 h1o⟩, ⟨_, invoke_ok _ _ _ _ _ h2 h2o⟩, ?_, ?_⟩
  · intro b
    unfold invokeT
    rw [if_pos (And.intro h1 h1o)]
    simp
  · intro b
    unfold invokeT
    rw [if_pos (And.intro h2 h2o)]
    simp

/-- Looking up a key that was just published finds the stored artifact. -/
theorem cacheLookup_insert (es : List (Sig × CompiledArtifact)) (key : Sig)
    (a : CompiledArtifact) :
    cacheLookup (BuildCache.mk ((key, a) :: es)) key = some a := by
  unfold cacheLookup
  rw [List.find?_cons_of_pos _ (by simp)]
  rfl

/-- C8: compiling the same definition, backend and options twice without
the rebuild flag yields the identical cached artifact, and the second
call performs no code generation: get_or_build hits the cache and returns
the stored artifact with zero builder invocations. -/
theorem cache_idempotent (c : BuildCache) (key : Sig)
    (builder : Unit → CompiledArtifact) :
    getOrBuild (getOrBuild c key builder false).2.1 key builder false
      = ((getOrBuild c key builder false).1,
         ((getOrBuild c key builder false).2.1, 0)) := by
  cases h : cacheLookup c key with
  | some a => simp [getOrBuild, h]
  | none => simp [getOrBuild, h, cacheLookup_insert]

/-- The coherence invariant is preserved by every access from every state
satisfying it. -/
theorem runOps_preserves_not_both_dirty (ops : List MemOp) (s : CoherenceFlags)
    (hs : ¬(s.hostDirty = true ∧ s.deviceDirty = true)) :
    ¬((runOps s ops).hostDirty = true ∧ (runOps s ops).deviceDirty = true) := by
  induction ops generalizing s with
  | nil => exact hs
  | cons op t ih =>
    show ¬((runOps (stepFlags s op) t).hostDirty = true
      ∧ (runOps (stepFlags s op) t).deviceDirty = true)
    apply ih
    cases op with
    | writeHost => simp [stepFlags]
    | writeDevice => simp [stepFlags]
    | readHost =>
      cases hd : s.deviceDirty with
      | true => simp [stepFlags, hd]
      | false => simp [stepFlags, hd]
    | readDevice =>
      cases hh : s.hostDirty with
      | true => simp [stepFlags, hh]
      | false => simp [stepFlags, hh]

/-- C9: in the per-storage coherence state machine, for every sequence of
read/write accesses on either side starting from Clean, the flags never
indicate both buffers dirty simultaneously: one buffer is always the
authoritative most recent copy. -/
theorem coherence_never_both_dirty (ops : List MemOp) :
    ¬((runOps cleanFlags ops).hostDirty = true
      ∧ (runOps cleanFlags ops).deviceDirty = true) :=
  runOps_preserves_not_both_dirty ops cleanFlags (by simp [cleanFlags])

/-- An element write to reference r leaves every other reference
unchanged. -/
theorem writeElem_mem_ne (H : Heap) (r x : ℕ) (hx : x ≠ r) (i j k : ℤ) (v : Val) :
    (H.writeElem r i j k v).mem x = H.mem x := by
  unfold Heap.writeElem
  cases hm : H.mem r with
  | none => rfl
  | some s0 => simp [hx]

/-- A successful heap invocation modifies only the output reference. -/
theorem invokeAt_mem_ne (H : Heap) (art : Artifact) (rin rout x : ℕ) (o d : Idx3)
    (h2 : Heap) (hx : x ≠ rout) (hok : H.invokeAt art rin rout o d = Except.ok h2) :
    h2.mem x = H.mem x := by
  unfold Heap.invokeAt at hok
  cases hin : H.mem rin with
  | none =>
    rw [hin] at hok
    exact Except.noConfusion hok
  | some s1 =>
    rw [hin] at hok
    cases hout2 : H.mem rout with
    | none =>
      rw [hout2] at hok
      exact Except.noConfusion hok
    | some s2 =>
      rw [hout2] at hok
      dsimp only at hok
      cases hinv : invoke art s1 s2 o d with
      | error e =>
        rw [hinv] at hok
        exact Except.noConfusion hok
      | ok r2 =>
        rw [hinv] at hok
        cases hok
        simp [hx]

/-- C10: copying a storage yields a fresh reference with the same shape,
origin, dtype and element values that does not alias the original: an
element write to the original leaves the copy unchanged, and a stencil
invocation reading the original writes only its declared output
reference, so the copy is unchanged whenever it is not that output. -/
theorem copy_independent (h : Heap) (r : ℕ) (s : Storage)
    (hwf : h.wf) (hr : h.mem r = some s) :
    (h.copyAt r).2 ≠ r ∧
    (h.copyAt r).1.mem (h.copyAt r).2 = some s ∧
    (h.copyAt r).1.mem r = some s ∧
    (∀ (i j k : ℤ) (v : Val),
      ((h.copyAt r).1.writeElem r i j k v).mem (h.copyAt r).2 = some s) ∧
    (∀ (art : Artifact) (rout : ℕ) (o d : Idx3) (h2 : Heap),
      rout ≠ (h.copyAt r).2 →
      (h.copyAt r).1.invokeAt art r rout o d = Except.ok h2 →
      h2.mem (h.copyAt r).2 = some s) := by
  have hlt : r < h.next := by
    by_contra hge
    rw [hwf r (by omega)] at hr
    exact Option.noConfusion hr
  have hcopy : h.copyAt r
      = (Heap.mk (fun x => if x = h.next then some s else h.mem x) (h.next + 1), h.next) := by
    unfold Heap.copyAt Heap.alloc
    rw [hr]
  have hne2 : (h.copyAt r).2 ≠ r := by
    rw [hcopy]
    show h.next ≠ r
    omega
  have hmem2 : (h.copyAt r).1.mem (h.copyAt r).2 = some s := by
    rw [hcopy]
    show (if h.next = h.next then some s else h.mem h.next) = some s
    rw [if_pos rfl]
  have hmemr : (h.copyAt r).1.mem r = some s := by
    rw [hcopy]
    show (if r = h.next then some s else h.mem r) = some s
    rw [if_neg (by omega)]
    exact hr
  refine ⟨hne2, hmem2, hmemr, ?_, ?_⟩
  · intro i j k v
    rw [writeElem_mem_ne _ r _ hne2]
    exact hmem2
  · intro art rout o d h2 hne hok
    rw [invokeAt_mem_ne _ art r rout _ o d h2 (fun he => hne he.symm) hok]
    exact hmem2

/-- Witness: C1 at the notebook call site (origin (3,3,0), domain
(8,8,1)) and the interior point (5,5,0). -/
theorem shift_by_one_correct_witness :
    ∃ r : Storage, invoke (shift_by_one Backend.numpy)
        (wsStorage (fun i _ _ => (i : ℚ))) (wsStorage (fun _ _ _ => 0))
        (Idx3.mk 3 3 0) (Idx3.mk 8 8 1) = Except.ok r ∧
      r.data 5 5 0 = (wsStorage (fun i _ _ => (i : ℚ))).data (5 - 1) 5 0 :=
  shift_by_one_correct Backend.numpy (wsStorage (fun i _ _ => (i : ℚ)))
    (wsStorage (fun _ _ _ => 0)) (Idx3.mk 3 3 0) (Idx3.mk 8 8 1)
    (by decide) (by decide) 5 5 0 (by decide)

/-- Witness: C2 at the notebook full-domain call from origin (0,0,0). -/
theorem out_of_bounds_atomic_witness :
    invokeT (shift_by_one Backend.numpy) (wsStorage (fun _ _ _ => 0))
        (wsStorage (fun _ _ _ => 1)) (Idx3.mk 0 0 0) (Idx3.mk 14 14 1)
      = (Except.error GTError.outOfBoundsError, []) ∧
    (∀ f g : Fld,
      invoke (shift_by_one Backend.numpy) (wsStorage f) (wsStorage g)
        (Idx3.mk 0 0 0) (Idx3.mk 14 14 1) = Except.error GTError.outOfBoundsError ∧
      ∃ r : Storage, invoke (shift_by_one Backend.numpy) (wsStorage f) (wsStorage g)
        (Idx3.mk 1 0 0) (Idx3.mk 13 14 1) = Except.ok r) :=
  out_of_bounds_atomic (shift_by_one Backend.numpy) (wsStorage (fun _ _ _ => 0))
    (wsStorage (fun _ _ _ => 1)) (Idx3.mk 0 0 0) (Idx3.mk 14 14 1) (by decide)

/-- Witness: C3 at the halo point (0,0,0), outside the computed region of
the notebook call. -/
theorem stencil_frame_witness :
    ∃ r : Storage, invoke (shift_by_one Backend.numpy)
        (wsStorage (fun i _ _ => (i : ℚ))) (wsStorage (fun _ _ _ => 7))
        (Idx3.mk 3 3 0) (Idx3.mk 8 8 1) = Except.ok r ∧
      r.data 0 0 0 = (wsStorage (fun _ _ _ => 7)).data 0 0 0 :=
  stencil_frame (shift_by_one Backend.numpy) (wsStorage (fun i _ _ => (i : ℚ)))
    (wsStorage (fun _ _ _ => 7)) (Idx3.mk 3 3 0) (Idx3.mk 8 8 1)
    (by decide) (by decide) 0 0 0 (by decide)

/-- Witness: C4 comparing the reference and compiled backends on the
shift kernel over the notebook region. -/
theorem backend_equivalence_witness :
    ∃ r1 r2 : Storage,
      invoke (Artifact.mk Backend.debug (HaloReq.mk 1 0 0 0 0 0) zeroHalo
          (fun inp i j k => inp (i - 1) j k))
        (wsStorage (fun i _ _ => (i : ℚ))) (wsStorage (fun _ _ _ => 0))
        (Idx3.mk 3 3 0) (Idx3.mk 8 8 1) = Except.ok r1 ∧
      invoke (Artifact.mk Backend.gtx86 (HaloReq.mk 1 0 0 0 0 0) zeroHalo
          (fun inp i j k => inp (i - 1) j k))
        (wsStorage (fun i _ _ => (i : ℚ))) (wsStorage (fun _ _ _ => 0))
        (Idx3.mk 3 3 0) (Idx3.mk 8 8 1) = Except.ok r2 ∧
      r1.data 5 5 0 = r2.data 5 5 0 :=
  backend_equivalence Backend.debug Backend.gtx86 (HaloReq.mk 1 0 0 0 0 0) zeroHalo
    (fun inp i j k => inp (i - 1) j k) (wsStorage (fun i _ _ => (i : ℚ)))
    (wsStorage (fun _ _ _ => 0)) (Idx3.mk 3 3 0) (Idx3.mk 8 8 1)
    (by decide) (by decide) 5 5 0

/-- Witness: C5 on the notebook exercise inserting np.sqrt into the
stencil body. -/
theorem definition_error_before_compile_witness :
    ∃ msg : String, compileT sqrtExercise Backend.numpy
      = (Except.error (GTError.definitionError msg), []) :=
  definition_error_before_compile sqrtExercise Backend.numpy (Or.inl (by decide))

/-- Witness: C6 at the notebook call site and the interior point
(5,5,0). -/
theorem laplacian_coeff_correct_witness :
    (∃ r : Storage, invoke (laplacian 0 Backend.numpy)
        (wsStorage (fun i j _ => (i : ℚ) * j)) (wsStorage (fun _ _ _ => 0))
        (Idx3.mk 3 3 0) (Idx3.mk 8 8 1) = Except.ok r ∧
      r.data 5 5 0 = 0) ∧
    (∃ r : Storage, invoke (laplacian 1 Backend.numpy)
        (wsStorage (fun i j _ => (i : ℚ) * j)) (wsStorage (fun _ _ _ => 0))
        (Idx3.mk 3 3 0) (Idx3.mk 8 8 1) = Except.ok r ∧
      r.data 5 5 0 = -4 * (wsStorage (fun i j _ => (i : ℚ) * j)).data 5 5 0
        + (wsStorage (fun i j _ => (i : ℚ) * j)).data (5 - 1) 5 0
        + (wsStorage (fun i j _ => (i : ℚ) * j)).data (5 + 1) 5 0
        + (wsStorage (fun i j _ => (i : ℚ) * j)).data 5 (5 - 1) 0
        + (wsStorage (fun i j _ => (i : ℚ) * j)).data 5 (5 + 1) 0) :=
  laplacian_coeff_correct Backend.numpy (wsStorage (fun i j _ => (i : ℚ) * j))
    (wsStorage (fun _ _ _ => 0)) (Idx3.mk 3 3 0) (Idx3.mk 8 8 1)
    (by decide) (by decide) 5 5 0 (by decide)

/-- Witness: C7 invoking the same compiled shift stencil on the notebook
14x14x1 grid and on a 20x6x4 grid with a different compute sub-region. -/
theorem artifact_shape_independent_witness :
    (∃ r : Storage, invoke (shift_by_one Backend.numpy)
      (wsStorage (fun _ _ _ => 0)) (wsStorage (fun _ _ _ => 0))
      (Idx3.mk 3 3 0) (Idx3.mk 8 8 1) = Except.ok r) ∧
    (∃ r : Storage, invoke (shift_by_one Backend.numpy)
      (Storage.mk (Idx3.mk 20 6 4) (Idx3.mk 0 0 0) DType.float64 (fun _ _ _ => 0))
      (Storage.mk (Idx3.mk 20 6 4) (Idx3.mk 0 0 0) DType.float64 (fun _ _ _ => 0))
      (Idx3.mk 1 0 0) (Idx3.mk 19 6 4) = Except.ok r) ∧
    (∀ b : Backend, Event.codegen b ∉ (invokeT (shift_by_one Backend.numpy)
      (wsStorage (fun _ _ _ => 0)) (wsStorage (fun _ _ _ => 0))
      (Idx3.mk 3 3 0) (Idx3.mk 8 8 1)).2) ∧
    (∀ b : Backend, Event.codegen b ∉ (invokeT (shift_by_one Backend.numpy)
      (Storage.mk (Idx3.mk 20 6 4) (Idx3.mk 0 0 0) DType.float64 (fun _ _ _ => 0))
      (Storage.mk (Idx3.mk 20 6 4) (Idx3.mk 0 0 0) DType.float64 (fun _ _ _ => 0))
      (Idx3.mk 1 0 0) (Idx3.mk 19 6 4)).2) :=
  artifact_shape_independent (shift_by_one Backend.numpy)
    (wsStorage (fun _ _ _ => 0)) (wsStorage (fun _ _ _ => 0))
    (Idx3.mk 3 3 0) (Idx3.mk 8 8 1)
    (Storage.mk (Idx3.mk 20 6 4) (Idx3.mk 0 0 0) DType.float64 (fun _ _ _ => 0))
    (Storage.mk (Idx3.mk 20 6 4) (Idx3.mk 0 0 0) DType.float64 (fun _ _ _ => 0))
    (Idx3.mk 1 0 0) (Idx3.mk 19 6 4)
    (by decide) (by decide) (by decide) (by decide)

/-- Witness: C10 on a heap holding the notebook input storage at
reference 0. -/
theorem copy_independent_witness :
    (tutorialHeap.copyAt 0).2 ≠ 0 ∧
    (tutorialHeap.copyAt 0).1.mem (tutorialHeap.copyAt 0).2
      = some (wsStorage (fun _ _ _ => 0)) ∧
    (tutorialHeap.copyAt 0).1.mem 0 = some (wsStorage (fun _ _ _ => 0)) ∧
    (∀ (i j k : ℤ) (v : Val),
      ((tutorialHeap.copyAt 0).1.writeElem 0 i j k v).mem (tutorialHeap.copyAt 0).2
        = some (wsStorage (fun _ _ _ => 0))) ∧
    (∀ (art : Artifact) (rout : ℕ) (o d : Idx3) (h2 : Heap),
      rout ≠ (tutorialHeap.copyAt 0).2 →
      (tutorialHeap.copyAt 0).1.invokeAt art 0 rout o d = Except.ok h2 →
      h2.mem (tutorialHeap.copyAt 0).2 = some (wsStorage (fun _ _ _ => 0))) :=
  copy_independent tutorialHeap 0 (wsStorage (fun _ _ _ => 0))
    (fun x hx => by
      have hx1 : 1 ≤ x := hx
      have hne : x ≠ 0 := by omega
      simp [tutorialHeap, hne])
    rfl

end GT4Py
